import Mathlib

/-!
Verification of the AIRT exhibit lifecycle subsystem.

This development gives a shallow embedding of the client-side core of the
AIRT gallery application: the dependency loader (`loadScript`,
`waitForGlobal`), the exhibit loader (`loadRegistry`, `getExhibitConfig`,
`loadExhibit`, `unloadExhibit`, `getExhibits`) and the SPA router
(`handleRoute`, `navigateTo`, `showExhibit`, `showGallery`), all from
`src/public/js/core/exhibit-loader.js` and `src/public/js/core/router.js`.

Browser effects are made explicit:
  * the DOM viewport container is a child count,
  * window event listeners are a list of handler identities (a handler
    identity stands for a JS function reference),
  * network and module-import outcomes are supplied by an environment,
  * the event loop is modelled by running the synchronous prefix of each
    async operation and resolving the suspended remainder as an explicit
    later step.
-/

namespace Airt

/-- Errors constructed by the loader, carrying the data interpolated into
the corresponding JS `Error` message. -/
inductive JsError where
  /-- Error for: both the primary and the fallback script source failed
  (`Failed to load script from SRC and FALLBACK`). -/
  | scriptBothFailed (primarySrc fallbackSrc : String)
  /-- Error for: the primary source failed and no fallback was given
  (`Failed to load script: SRC`). -/
  | scriptPrimaryFailed (primarySrc : String)
  /-- Error for: `Timed out waiting for global: NAME`. -/
  | globalTimeout (globalName : String)
deriving DecidableEq, Repr

/-- Result of the readiness polling loop in `waitForGlobal`. -/
inductive WaitResult where
  /-- The global became available at the check with this index (0-based). -/
  | available (checkIndex : Nat)
  /-- The polling loop gave up after `elapsedTime` reached the timeout. -/
  | timedOut
deriving DecidableEq, Repr

/-- One step of `waitForGlobal`'s `check` closure.  `avail k` tells whether
`window[globalName]` is truthy at the k-th check.  `elapsed` mirrors the JS
`elapsedTime` variable: it is incremented by `interval` after every failed
check, and the loop rejects once it reaches `timeout`. -/
def waitForGlobalCheck (avail : Nat → Bool) (timeout interval : Nat)
    (hpos : 0 < interval) (k elapsed : Nat) : WaitResult :=
  if avail k then
    .available k
  else if _h : timeout ≤ elapsed + interval then
    .timedOut
  else
    waitForGlobalCheck avail timeout interval hpos (k + 1) (elapsed + interval)
termination_by timeout - elapsed
decreasing_by omega

/-- Function `waitForGlobal(globalName, timeout = 5000, interval = 50)` from
`exhibit-loader.js`, with the default timeout and interval. -/
def waitForGlobal (avail : Nat → Bool) : WaitResult :=
  waitForGlobalCheck avail 5000 50 (by decide) 0 0

/-- The polling loop resolves only at a check where the global is
available, and the index of that check keeps `elapsedTime` strictly below
the timeout; otherwise it rejects.  Stated for every start state whose
`elapsed` agrees with the number of checks already made. -/
theorem waitForGlobalCheck_spec (avail : Nat → Bool) (timeout interval : Nat)
    (hpos : 0 < interval) :
    ∀ n k elapsed, timeout - elapsed ≤ n → elapsed = k * interval →
      elapsed < timeout →
      (∃ j, k ≤ j ∧ j * interval < timeout ∧ avail j = true ∧
        waitForGlobalCheck avail timeout interval hpos k elapsed = .available j)
      ∨ waitForGlobalCheck avail timeout interval hpos k elapsed = .timedOut := by
  intro n
  induction n with
  | zero =>
    intro k elapsed hn he hlt
    omega
  | succ n ih =>
    intro k elapsed hn he hlt
    unfold waitForGlobalCheck
    by_cases ha : avail k
    · exact Or.inl ⟨k, le_refl k, by omega, ha, by simp [ha]⟩
    · simp only [ha, Bool.false_eq_true, if_false]
      by_cases ht : timeout ≤ elapsed + interval
      · simp [ht]
      · simp only [ht, dif_neg, not_false_iff]
        rcases ih (k + 1) (elapsed + interval) (by omega)
            (by rw [he]; ring) (by omega) with h | h
        · obtain ⟨j, hkj, hjb, hav, heq⟩ := h
          exact Or.inl ⟨j, by omega, hjb, hav, heq⟩
        · exact Or.inr h

/-- C7: for every dependency with a readiness check, the readiness polling
after script load is bounded: it either succeeds at some check made while
less than 5000ms have elapsed (checks are 50ms apart, so at most 100
checks run) or rejects explicitly with a timeout; it never polls
indefinitely. -/
theorem waitForGlobal_bounded (avail : Nat → Bool) :
    (∃ j, j * 50 < 5000 ∧ avail j = true ∧ waitForGlobal avail = .available j)
    ∨ waitForGlobal avail = .timedOut := by
  have h := waitForGlobalCheck_spec avail 5000 50 (by decide) 5000 0 0
    (by omega) (by simp) (by omega)
  rcases h with ⟨j, _, hjb, hav, heq⟩ | h
  · exact Or.inl ⟨j, hjb, hav, heq⟩
  · exact Or.inr h

/-! ### The synchronous deduplication state of `loadScript`

`loadScript(src, fallbackSrc, globalName)` first consults the
`loadedScripts` map; a hit returns the memoized promise with no DOM
mutation.  On a miss the promise executor runs synchronously: it creates
the primary script element and appends it to the document head, and the
promise is then stored in the map.  Promises are identified by allocation
order; the appended script elements are logged by source URL. -/

/-- State owned by the dependency loader: the `loadedScripts` map (in
insertion order) plus a log of every script element appended to the
document, and a counter allocating promise identities. -/
structure DepLoaderState where
  loadedScripts : List (String × Nat)
  nextPromiseId : Nat
  appendedScripts : List String
deriving DecidableEq, Repr

/-- Map access `this.loadedScripts.has(src)` / `.get(src)` combined. -/
def lookupScript : List (String × Nat) → String → Option Nat
  | [], _ => none
  | (s, p) :: rest, src => if s = src then some p else lookupScript rest src

/-- The synchronous part of `loadScript`: dedup check, then (on a miss)
creation and injection of the primary script element and registration of
the new promise.  Returns the new state and the promise handed back to the
caller. -/
def loadScript (st : DepLoaderState) (src : String) :
    DepLoaderState × Nat :=
  match lookupScript st.loadedScripts src with
  | some p => (st, p)
  | none =>
      let p := st.nextPromiseId
      ({ loadedScripts := st.loadedScripts ++ [(src, p)],
         nextPromiseId := p + 1,
         appendedScripts := st.appendedScripts ++ [src] }, p)

/-- Occurrences of a given source URL among the appended script elements. -/
def injectionsFor (st : DepLoaderState) (src : String) : Nat :=
  (st.appendedScripts.filter (fun s => s = src)).length

theorem lookupScript_append_self (l : List (String × Nat)) (src : String)
    (p : Nat) (h : lookupScript l src = none) :
    lookupScript (l ++ [(src, p)]) src = some p := by
  induction l with
  | nil => simp [lookupScript]
  | cons hd tl ih =>
    obtain ⟨s, q⟩ := hd
    simp only [lookupScript, List.cons_append] at h ⊢
    by_cases hs : s = src
    · rw [if_pos hs] at h
      exact absurd h (by simp)
    · rw [if_neg hs] at h ⊢
      exact ih h

/-- C6: dependency loading is idempotent per descriptor: a second call of
`loadScript` for the same source URL (the dedup key) returns the very same
promise, leaves the loader state untouched, and in total exactly one
script element has been injected for that URL (given none had been before
the first call). -/
theorem loadScript_idempotent (st : DepLoaderState) (src : String)
    (hfresh : lookupScript st.loadedScripts src = none) :
    (loadScript (loadScript st src).1 src).2 = (loadScript st src).2 ∧
    (loadScript (loadScript st src).1 src).1 = (loadScript st src).1 ∧
    injectionsFor (loadScript (loadScript st src).1 src).1 src =
      injectionsFor st src + 1 := by
  have h1 : loadScript st src =
      ({ loadedScripts := st.loadedScripts ++ [(src, st.nextPromiseId)],
         nextPromiseId := st.nextPromiseId + 1,
         appendedScripts := st.appendedScripts ++ [src] }, st.nextPromiseId) := by
    simp [loadScript, hfresh]
  have h2 := lookupScript_append_self st.loadedScripts src st.nextPromiseId hfresh
  refine ⟨?_, ?_, ?_⟩
  · rw [h1]
    simp [loadScript, h2]
  · rw [h1]
    simp [loadScript, h2]
  · rw [h1]
    simp [loadScript, h2, injectionsFor]

/-- Closed witness for C6: on a fresh loader, two calls for the p5 CDN URL
share promise 0 and inject one script element. -/
theorem loadScript_idempotent_witness :
    (loadScript (loadScript ⟨[], 0, []⟩ "p5cdn").1 "p5cdn").2 =
      (loadScript ⟨[], 0, []⟩ "p5cdn").2 ∧
    (loadScript (loadScript ⟨[], 0, []⟩ "p5cdn").1 "p5cdn").1 =
      (loadScript ⟨[], 0, []⟩ "p5cdn").1 ∧
    injectionsFor (loadScript (loadScript ⟨[], 0, []⟩ "p5cdn").1 "p5cdn").1 "p5cdn" =
      injectionsFor ⟨[], 0, []⟩ "p5cdn" + 1 :=
  loadScript_idempotent ⟨[], 0, []⟩ "p5cdn" rfl

/-! ### The asynchronous event protocol of one `loadScript` promise

The promise created by `loadScript` settles through the event handlers
`handleLoad` and `handleError`.  The browser's behaviour is an
environment: whether each source URL fires `onload` or `onerror`, and at
which readiness check (if any) the awaited global becomes truthy after
each script runs. -/

/-- Behaviour of the surrounding browser for one descriptor: load/error
outcome of each source URL and the readiness timeline of the global after
each script has run. -/
structure ScriptEnv where
  primaryLoads : Bool
  primaryAvail : Nat → Bool
  fallbackLoads : Bool
  fallbackAvail : Nat → Bool

/-- Final settlement of the `loadScript` promise. -/
inductive ScriptOutcome where
  | settled
  | rejected (err : JsError)
deriving DecidableEq, Repr

/-- The `handleLoad` handler: with a `globalName` it awaits
`waitForGlobal` and resolves on success or rejects with the timeout
error; with no `globalName` it resolves immediately. -/
def handleLoad (globalName : Option String) (avail : Nat → Bool) :
    ScriptOutcome :=
  match globalName with
  | none => .settled
  | some g =>
      match waitForGlobal avail with
      | .available _ => .settled
      | .timedOut => .rejected (.globalTimeout g)

/-- The whole settlement protocol of one `loadScript` promise: primary
`onload` runs `handleLoad`; primary `onerror` runs `handleError`, which
injects the fallback script when one is given (wiring the same
`handleLoad` to it) and otherwise rejects; a failing fallback rejects with
the error naming both sources.  The second component counts the script
elements appended to the document during the protocol. -/
def runScriptProtocol (env : ScriptEnv) (src : String)
    (fallbackSrc : Option String) (globalName : Option String) :
    ScriptOutcome × Nat :=
  if env.primaryLoads then
    (handleLoad globalName env.primaryAvail, 1)
  else
    match fallbackSrc with
    | some fb =>
        if env.fallbackLoads then
          (handleLoad globalName env.fallbackAvail, 2)
        else
          (.rejected (.scriptBothFailed src fb), 2)
    | none => (.rejected (.scriptPrimaryFailed src), 1)

/-- C8: when the primary URL fails to load, the fallback URL is injected
(two script elements in total) and the same readiness protocol
(`handleLoad`, i.e. `waitForGlobal` polling) is repeated on the fallback;
the promise rejects only when the fallback also fails — either its load
fails, rejecting with the error naming both failed sources, or its
readiness polling times out, rejecting with the timeout error. -/
theorem script_fallback_protocol (env : ScriptEnv) (src fb : String)
    (globalName : Option String) (hfail : env.primaryLoads = false) :
    (runScriptProtocol env src (some fb) globalName).2 = 2 ∧
    (env.fallbackLoads = true →
      (runScriptProtocol env src (some fb) globalName).1 =
        handleLoad globalName env.fallbackAvail) ∧
    (∀ e, (runScriptProtocol env src (some fb) globalName).1 = .rejected e →
      (env.fallbackLoads = false ∧ e = .scriptBothFailed src fb) ∨
      (∃ g, globalName = some g ∧ env.fallbackLoads = true ∧
        waitForGlobal env.fallbackAvail = .timedOut ∧
        e = .globalTimeout g)) := by
  refine ⟨?_, ?_, ?_⟩
  · by_cases hfb : env.fallbackLoads <;>
      simp [runScriptProtocol, hfail, hfb]
  · intro hfb
    simp [runScriptProtocol, hfail, hfb]
  · intro e he
    by_cases hfb : env.fallbackLoads
    · simp only [runScriptProtocol, hfail, Bool.false_eq_true, if_false,
        hfb, if_true] at he
      match hg : globalName with
      | none => simp [handleLoad, hg] at he
      | some g =>
          simp only [handleLoad, hg] at he
          match hw : waitForGlobal env.fallbackAvail with
          | .available j => simp [hw] at he
          | .timedOut =>
              simp only [hw] at he
              exact Or.inr ⟨g, rfl, hfb, rfl, by
                cases he
                rfl⟩
    · simp only [runScriptProtocol, hfail, Bool.false_eq_true, if_false,
        hfb, if_false] at he
      cases he
      exact Or.inl ⟨by simpa using hfb, rfl⟩

/-- Environment for the C8 witness: the primary URL and the fallback URL
both fail to load. -/
def bothFailEnv : ScriptEnv :=
  ⟨false, fun _ => false, false, fun _ => false⟩

/-- Closed witness for C8 at a concrete environment where both sources
fail. -/
theorem script_fallback_protocol_witness :
    (runScriptProtocol bothFailEnv "cdnUrl" (some "localUrl") none).2 = 2 ∧
    (bothFailEnv.fallbackLoads = true →
      (runScriptProtocol bothFailEnv "cdnUrl" (some "localUrl") none).1 =
        handleLoad none bothFailEnv.fallbackAvail) ∧
    (∀ e, (runScriptProtocol bothFailEnv "cdnUrl" (some "localUrl") none).1 =
        .rejected e →
      (bothFailEnv.fallbackLoads = false ∧
        e = .scriptBothFailed "cdnUrl" "localUrl") ∨
      (∃ g, (none : Option String) = some g ∧ bothFailEnv.fallbackLoads = true ∧
        waitForGlobal bothFailEnv.fallbackAvail = .timedOut ∧
        e = .globalTimeout g)) :=
  script_fallback_protocol bothFailEnv "cdnUrl" "localUrl" none rfl

/-! ### Exhibit instances, the shared DOM container and window listeners

An exhibit instance records which optional lifecycle hooks it carries,
whether each hook throws when called, and the `_resizeHandler` stamped
onto it by `loadExhibit` (a handler identity standing for the JS function
reference that was passed to `addEventListener`). -/

/-- The live object produced by `new ExhibitClass(container, config)` plus
the fields `loadExhibit` stamps onto it. -/
structure ExhibitInstance where
  id : String
  hasStop : Bool
  stopThrows : Bool
  hasDestroy : Bool
  destroyThrows : Bool
  resizeHandler : Option Nat
deriving DecidableEq, Repr

/-- The browser state the loader mutates: the shared
`exhibit-container`'s child count, the window's registered resize
listeners (by handler identity, in registration order) and a counter
allocating fresh handler identities. -/
structure World where
  containerChildren : Nat
  windowListeners : List Nat
  nextHandlerId : Nat
deriving DecidableEq, Repr

/-- Which steps of `unloadExhibit` actually ran, and whether an exception
escaped the call (it never does: the whole body sits in one
`try`/`catch` whose handler only logs). -/
structure UnloadTrace where
  stopCalled : Bool
  destroyCalled : Bool
  listenerRemoveCalled : Bool
  containerCleared : Bool
  exceptionEscaped : Bool
deriving DecidableEq, Repr

/-- Method `unloadExhibit(exhibit)` from `exhibit-loader.js`: no-op on null;
otherwise one `try` block runs stop, destroy, `removeEventListener` on the
recorded `_resizeHandler`, and clears the container; a throw from any step
jumps to the single `catch`, which logs and returns, skipping the
remaining steps. -/
def unloadExhibit (w : World) (ex : Option ExhibitInstance) :
    World × UnloadTrace :=
  match ex with
  | none => (w, ⟨false, false, false, false, false⟩)
  | some e =>
      if e.hasStop && e.stopThrows then
        (w, ⟨true, false, false, false, false⟩)
      else if e.hasDestroy && e.destroyThrows then
        (w, ⟨e.hasStop, true, false, false, false⟩)
      else
        let w1 :=
          match e.resizeHandler with
          | some h => { w with windowListeners := w.windowListeners.erase h }
          | none => w
        ({ w1 with containerChildren := 0 },
         ⟨e.hasStop, e.hasDestroy, e.resizeHandler.isSome, true, false⟩)

/-- An instance whose stop hook throws, used to exercise the single
`try`/`catch` of `unloadExhibit`. -/
def throwingStopInst : ExhibitInstance :=
  ⟨"bad", true, true, true, false, some 7⟩

/-- C2 counterexample: on an instance whose stop hook throws,
`unloadExhibit` does not complete its cleanup — the destroy hook is never
called, the recorded resize listener stays registered, and the shared
container keeps its children — refuting the claim that the stop and
destroy hooks are each independently guarded and that cleanup always
completes. -/
theorem unload_skips_cleanup_on_throwing_stop :
    (unloadExhibit ⟨3, [7], 8⟩ (some throwingStopInst)).2.destroyCalled = false ∧
    (unloadExhibit ⟨3, [7], 8⟩ (some throwingStopInst)).2.listenerRemoveCalled = false ∧
    (unloadExhibit ⟨3, [7], 8⟩ (some throwingStopInst)).2.containerCleared = false ∧
    (unloadExhibit ⟨3, [7], 8⟩ (some throwingStopInst)).1.windowListeners = [7] ∧
    (unloadExhibit ⟨3, [7], 8⟩ (some throwingStopInst)).1.containerChildren = 3 := by
  decide

/-- C2 (amended): `unloadExhibit` never lets an exception escape, for any
input; and whenever neither the stop hook nor the destroy hook throws, it
completes the full cleanup — calling whichever of the stop and destroy
hooks exist, removing exactly the recorded resize listener, and clearing
the shared container.  (A throwing hook is caught and logged, but aborts
the remaining cleanup steps: the two hooks share a single guard.) -/
theorem unload_single_guard (w : World) (e : ExhibitInstance)
    (hs : e.stopThrows = false) (hd : e.destroyThrows = false) :
    (∀ v x, (unloadExhibit v x).2.exceptionEscaped = false) ∧
    (unloadExhibit w (some e)).2.containerCleared = true ∧
    (unloadExhibit w (some e)).1.containerChildren = 0 ∧
    (unloadExhibit w (some e)).2.stopCalled = e.hasStop ∧
    (unloadExhibit w (some e)).2.destroyCalled = e.hasDestroy ∧
    (unloadExhibit w (some e)).2.listenerRemoveCalled = e.resizeHandler.isSome ∧
    (unloadExhibit w (some e)).1.windowListeners =
      (match e.resizeHandler with
       | some h => w.windowListeners.erase h
       | none => w.windowListeners) := by
  refine ⟨?_, ?_⟩
  · intro v x
    match x with
    | none => rfl
    | some i =>
        unfold unloadExhibit
        by_cases h1 : i.hasStop && i.stopThrows
        · simp [h1]
        · by_cases h2 : i.hasDestroy && i.destroyThrows <;>
            simp [h1, h2]
  · unfold unloadExhibit
    cases h : e.resizeHandler <;> simp [hs, hd, h]

/-- A well-behaved instance for the C2 witness. -/
def tameInst : ExhibitInstance := ⟨"ok", true, false, true, false, some 3⟩

/-- Closed witness for C2 (amended) at a concrete world and instance. -/
theorem unload_single_guard_witness :
    (∀ v x, (unloadExhibit v x).2.exceptionEscaped = false) ∧
    (unloadExhibit ⟨5, [3], 4⟩ (some tameInst)).2.containerCleared = true ∧
    (unloadExhibit ⟨5, [3], 4⟩ (some tameInst)).1.containerChildren = 0 ∧
    (unloadExhibit ⟨5, [3], 4⟩ (some tameInst)).2.stopCalled = tameInst.hasStop ∧
    (unloadExhibit ⟨5, [3], 4⟩ (some tameInst)).2.destroyCalled = tameInst.hasDestroy ∧
    (unloadExhibit ⟨5, [3], 4⟩ (some tameInst)).2.listenerRemoveCalled =
      tameInst.resizeHandler.isSome ∧
    (unloadExhibit ⟨5, [3], 4⟩ (some tameInst)).1.windowListeners =
      (match tameInst.resizeHandler with
       | some h => List.erase [3] h
       | none => [3]) :=
  unload_single_guard ⟨5, [3], 4⟩ tameInst rfl rfl

/-! ### Registry, per-exhibit configs and `loadExhibit` -/

/-- One entry of `registry.json`: `{id, enabled}`. -/
structure RegistryEntry where
  id : String
  enabled : Bool
deriving DecidableEq, Repr

/-- The registry document `{ exhibits: [...] }`. -/
structure Registry where
  exhibits : List RegistryEntry
deriving DecidableEq, Repr

/-- The fields of a per-exhibit `config.json` that the loader reads. -/
structure Config where
  title : String
  library : Option String
  controls : Option String
deriving DecidableEq, Repr

/-- Behaviour of the dynamically imported exhibit module: whether the
export lookup (`module.default || module.Exhibit || first key`) finds a
constructible class, what its constructor and optional hooks do, and how
many DOM children the constructor appends to the container. -/
structure ModuleBehavior where
  hasClass : Bool
  ctorThrows : Bool
  ctorChildren : Nat
  hasInit : Bool
  initThrows : Bool
  hasStop : Bool
  stopThrows : Bool
  hasDestroy : Bool
  destroyThrows : Bool

/-- The network and module-system environment one `loadExhibit` call runs
against: the (already loaded) registry, the outcome of each per-exhibit
`config.json` fetch, the settlement of the two library `loadScript`
promises, and the outcome of each dynamic `import`. -/
structure LoadEnv where
  registry : Registry
  configFetch : String → Except Unit Config
  p5Load : ScriptOutcome
  datLoad : ScriptOutcome
  importMod : String → Except Unit ModuleBehavior

/-- Lookup `this.registry.exhibits.find(e => e.id === exhibitId)`. -/
def findExhibit : List RegistryEntry → String → Option RegistryEntry
  | [], _ => none
  | e :: rest, exhibitId =>
      if e.id = exhibitId then some e else findExhibit rest exhibitId

/-- The body of `getExhibitConfig` once the registry is present: the
registry lookup (a miss is logged and returns null), then the config
fetch whose `try`/`catch` converts a failure to null. -/
def lookupConfig (reg : Registry) (fetch : String → Except Unit Config)
    (exhibitId : String) : Option Config :=
  match findExhibit reg.exhibits exhibitId with
  | none => none
  | some _ =>
      match fetch exhibitId with
      | .ok config => some config
      | .error _ => none

/-- Method `getExhibitConfig(exhibitId)` against a load environment. -/
def getExhibitConfig (env : LoadEnv) (exhibitId : String) : Option Config :=
  lookupConfig env.registry env.configFetch exhibitId

/-- Result of the `try` block of `loadExhibit`: a normal return (null or
an instance) or a thrown exception, each with the world effects already
performed. -/
inductive LoadBodyResult where
  | ok (w : World) (inst : Option ExhibitInstance)
  | threw (w : World)
deriving DecidableEq, Repr

/-- The steps of `loadExhibit` after a successful dynamic import, on the
already cleared container `w1`: extract the class (absence is logged and
returns null); construct the instance — appending the constructor's
children to the container — with a throw propagating; run the optional
init hook, a throw propagating; attach the window resize listener and
stamp the recorded handler onto the instance as `_resizeHandler`. -/
def instantiateModule (w1 : World) (exhibitId : String)
    (m : ModuleBehavior) : LoadBodyResult :=
  if m.hasClass = false then .ok w1 none
  else if m.ctorThrows then .threw w1
  else
    let w2 := { w1 with containerChildren := m.ctorChildren }
    if m.hasInit && m.initThrows then .threw w2
    else
      let h := w2.nextHandlerId
      let w3 := { w2 with
        windowListeners := w2.windowListeners ++ [h],
        nextHandlerId := h + 1 }
      .ok w3 (some ⟨exhibitId, m.hasStop, m.stopThrows,
        m.hasDestroy, m.destroyThrows, some h⟩)

/-- The steps of `loadExhibit` once a config was resolved: await the
library promises implied by `config.library` / `config.controls` (a
rejection throws out of `Promise.all`); clear the container; run the
dynamic import, a failure throwing; then instantiate. -/
def loadWithConfig (env : LoadEnv) (w : World) (exhibitId : String)
    (config : Config) : LoadBodyResult :=
  let p5res : ScriptOutcome :=
    if config.library = some "p5" then env.p5Load else .settled
  let datres : ScriptOutcome :=
    if config.controls = some "dat.gui" then env.datLoad else .settled
  match p5res, datres with
  | .rejected _, _ => .threw w
  | .settled, .rejected _ => .threw w
  | .settled, .settled =>
      let w1 := { w with containerChildren := 0 }
      match env.importMod exhibitId with
      | .error _ => .threw w1
      | .ok m => instantiateModule w1 exhibitId m

/-- The `try` block of `loadExhibit(exhibitId)`: resolve the config (null
short-circuits to a null return), then load dependencies, import,
instantiate and initialize. -/
def loadExhibitBody (env : LoadEnv) (w : World) (exhibitId : String) :
    LoadBodyResult :=
  match getExhibitConfig env exhibitId with
  | none => .ok w none
  | some config => loadWithConfig env w exhibitId config

/-- Method `loadExhibit(exhibitId)`: the `try` block above, with the outer
`catch` converting any thrown exception into a logged null return. -/
def loadExhibit (env : LoadEnv) (w : World) (exhibitId : String) :
    World × Option ExhibitInstance :=
  match loadExhibitBody env w exhibitId with
  | .ok w1 inst => (w1, inst)
  | .threw w1 => (w1, none)

theorem loadExhibit_none_of_config_none (env : LoadEnv) (w : World)
    (exhibitId : String) (h : getExhibitConfig env exhibitId = none) :
    loadExhibit env w exhibitId = (w, none) := by
  simp [loadExhibit, loadExhibitBody, h]

theorem instantiateModule_none_of_failure (w1 : World) (exhibitId : String)
    (m : ModuleBehavior)
    (h : m.hasClass = false ∨ m.ctorThrows = true ∨
      (m.hasInit = true ∧ m.initThrows = true)) :
    (match instantiateModule w1 exhibitId m with
     | .ok _ inst => inst
     | .threw _ => none) = none := by
  rcases h with h1 | h1 | ⟨h1, h2⟩
  · simp [instantiateModule, h1]
  · by_cases hcl : m.hasClass = false
    · simp [instantiateModule, hcl]
    · simp [instantiateModule, hcl, h1]
  · by_cases hcl : m.hasClass = false
    · simp [instantiateModule, hcl]
    · by_cases hct : m.ctorThrows
      · simp [instantiateModule, hcl, hct]
      · simp [instantiateModule, hcl, hct, h1, h2]

theorem loadBodyResult_snd_none (r : LoadBodyResult)
    (h : (match r with | .ok _ inst => inst | .threw _ => none) = none) :
    (match r with
     | LoadBodyResult.ok w1 inst => (w1, inst)
     | LoadBodyResult.threw w1 => (w1, none)).2 = none := by
  cases r with
  | ok w1 inst => simpa using h
  | threw w1 => rfl

theorem loadExhibit_none_of_import_failure (env : LoadEnv) (w : World)
    (exhibitId : String)
    (h : ∀ m, env.importMod exhibitId = .ok m →
      m.hasClass = false ∨ m.ctorThrows = true ∨
      (m.hasInit = true ∧ m.initThrows = true)) :
    (loadExhibit env w exhibitId).2 = none := by
  cases hc : getExhibitConfig env exhibitId with
  | none => simp [loadExhibit, loadExhibitBody, hc]
  | some config =>
      have hb : loadExhibitBody env w exhibitId =
          loadWithConfig env w exhibitId config := by
        simp [loadExhibitBody, hc]
      unfold loadExhibit
      rw [hb]
      apply loadBodyResult_snd_none
      unfold loadWithConfig
      cases hp : (if config.library = some "p5" then env.p5Load else .settled) with
      | rejected e => simp
      | settled =>
          cases hd : (if config.controls = some "dat.gui" then env.datLoad else .settled) with
          | rejected e => simp
          | settled =>
              cases hm : env.importMod exhibitId with
              | error u => rfl
              | ok m =>
                  exact instantiateModule_none_of_failure
                    { w with containerChildren := 0 } exhibitId m (h m hm)

/-- C4: every failure at any step of `loadExhibit` — the registry lookup
missing the id, the config fetch failing, a library promise rejecting, the
dynamic import failing, the class extraction finding nothing, the
constructor throwing, the init hook throwing — produces a null result;
and a thrown exception never crosses the loader boundary: the outer
`catch` turns every throw of the body into a null return. -/
theorem loadExhibit_failure_null (env : LoadEnv) (w : World)
    (exhibitId : String) :
    (∀ w1, loadExhibitBody env w exhibitId = .threw w1 →
      loadExhibit env w exhibitId = (w1, none)) ∧
    (findExhibit env.registry.exhibits exhibitId = none →
      (loadExhibit env w exhibitId).2 = none) ∧
    (env.configFetch exhibitId = .error () →
      (loadExhibit env w exhibitId).2 = none) ∧
    (∀ config e, getExhibitConfig env exhibitId = some config →
      config.library = some "p5" → env.p5Load = .rejected e →
      (loadExhibit env w exhibitId).2 = none) ∧
    (∀ config e, getExhibitConfig env exhibitId = some config →
      config.controls = some "dat.gui" → env.datLoad = .rejected e →
      (loadExhibit env w exhibitId).2 = none) ∧
    (env.importMod exhibitId = .error () →
      (loadExhibit env w exhibitId).2 = none) ∧
    (∀ m, env.importMod exhibitId = .ok m → m.hasClass = false →
      (loadExhibit env w exhibitId).2 = none) ∧
    (∀ m, env.importMod exhibitId = .ok m → m.ctorThrows = true →
      (loadExhibit env w exhibitId).2 = none) ∧
    (∀ m, env.importMod exhibitId = .ok m → m.hasInit = true →
      m.initThrows = true →
      (loadExhibit env w exhibitId).2 = none) := by
  refine ⟨?_, ?_, ?_, ?_, ?_, ?_, ?_, ?_, ?_⟩
  · intro w1 h
    simp [loadExhibit, h]
  · intro h
    have hc : getExhibitConfig env exhibitId = none := by
      simp [getExhibitConfig, lookupConfig, h]
    simp [loadExhibit_none_of_config_none env w exhibitId hc]
  · intro h
    have hc : getExhibitConfig env exhibitId = none := by
      unfold getExhibitConfig lookupConfig
      cases hf : findExhibit env.registry.exhibits exhibitId <;> simp [h]
    simp [loadExhibit_none_of_config_none env w exhibitId hc]
  · intro config e hc hl hp
    have hb : loadExhibitBody env w exhibitId =
        loadWithConfig env w exhibitId config := by
      simp [loadExhibitBody, hc]
    unfold loadExhibit
    rw [hb]
    unfold loadWithConfig
    simp [hl, hp]
  · intro config e hc hl hp
    have hb : loadExhibitBody env w exhibitId =
        loadWithConfig env w exhibitId config := by
      simp [loadExhibitBody, hc]
    unfold loadExhibit
    rw [hb]
    unfold loadWithConfig
    cases hq : (if config.library = some "p5" then env.p5Load else .settled) with
    | rejected e1 => simp
    | settled => simp [hl, hp]
  · intro h
    cases hc : getExhibitConfig env exhibitId with
    | none => simp [loadExhibit, loadExhibitBody, hc]
    | some config =>
        have hb : loadExhibitBody env w exhibitId =
            loadWithConfig env w exhibitId config := by
          simp [loadExhibitBody, hc]
        unfold loadExhibit
        rw [hb]
        unfold loadWithConfig
        cases hq : (if config.library = some "p5" then env.p5Load else .settled) with
        | rejected e => simp
        | settled =>
            cases hd : (if config.controls = some "dat.gui" then env.datLoad else .settled) with
            | rejected e => simp
            | settled => simp [h]
  · intro m hm hcl
    exact loadExhibit_none_of_import_failure env w exhibitId
      (fun m1 hm1 => by rw [hm] at hm1; cases hm1; exact Or.inl hcl)
  · intro m hm hct
    exact loadExhibit_none_of_import_failure env w exhibitId
      (fun m1 hm1 => by rw [hm] at hm1; cases hm1; exact Or.inr (Or.inl hct))
  · intro m hm hi ht
    exact loadExhibit_none_of_import_failure env w exhibitId
      (fun m1 hm1 => by rw [hm] at hm1; cases hm1; exact Or.inr (Or.inr ⟨hi, ht⟩))

/-- Environment for the C4 witness: an empty registry, every config fetch
and import failing. -/
def emptyRegistryEnv : LoadEnv :=
  ⟨⟨[]⟩, fun _ => .error (), .settled, .settled, fun _ => .error ()⟩

/-- Closed witness for C4: an id absent from the registry loads to null. -/
theorem loadExhibit_failure_null_witness :
    (loadExhibit emptyRegistryEnv ⟨0, [], 0⟩ "ghost").2 = none :=
  (loadExhibit_failure_null emptyRegistryEnv ⟨0, [], 0⟩ "ghost").2.1 rfl

theorem erase_appended_handler (l : List Nat) (a : Nat) (h : a ∉ l) :
    (l ++ [a]).erase a = l := by
  induction l with
  | nil => simp
  | cons x xs ih =>
      have hx : ¬ x = a := fun he => h (by simp [he])
      have hm : a ∉ xs := fun hmm => h (List.mem_cons_of_mem x hmm)
      simp [List.erase_cons, hx, ih hm]

/-- C3: for an exhibit id present and enabled in the registry, in an
environment where its load succeeds (config fetch ok, the library
promises settled, import ok, class found, constructor and the optional
hooks well-behaved), `loadExhibit` returns an instance carrying as
`_resizeHandler` exactly the handler identity it registered on the
window, and an immediate `unloadExhibit` of that instance leaves the
shared container with zero child nodes and restores the window's listener
list — the one added listener is removed, by the same recorded handler
identity. -/
theorem load_unload_clean (env : LoadEnv) (w : World) (exhibitId : String)
    (entry : RegistryEntry) (config : Config) (m : ModuleBehavior)
    (hreg : findExhibit env.registry.exhibits exhibitId = some entry)
    (_hen : entry.enabled = true)
    (hcfg : env.configFetch exhibitId = .ok config)
    (hp5 : env.p5Load = .settled)
    (hdat : env.datLoad = .settled)
    (himp : env.importMod exhibitId = .ok m)
    (hclass : m.hasClass = true)
    (hctor : m.ctorThrows = false)
    (hinit : m.initThrows = false)
    (hstop : m.stopThrows = false)
    (hdestroy : m.destroyThrows = false)
    (hfresh : w.nextHandlerId ∉ w.windowListeners) :
    ∃ inst, (loadExhibit env w exhibitId).2 = some inst ∧
      inst.resizeHandler = some w.nextHandlerId ∧
      (loadExhibit env w exhibitId).1.windowListeners =
        w.windowListeners ++ [w.nextHandlerId] ∧
      (unloadExhibit (loadExhibit env w exhibitId).1
        (loadExhibit env w exhibitId).2).1.containerChildren = 0 ∧
      (unloadExhibit (loadExhibit env w exhibitId).1
        (loadExhibit env w exhibitId).2).1.windowListeners =
        w.windowListeners := by
  have hc : getExhibitConfig env exhibitId = some config := by
    simp [getExhibitConfig, lookupConfig, hreg, hcfg]
  have hload : loadExhibit env w exhibitId =
      ({ containerChildren := m.ctorChildren,
         windowListeners := w.windowListeners ++ [w.nextHandlerId],
         nextHandlerId := w.nextHandlerId + 1 },
       some ⟨exhibitId, m.hasStop, m.stopThrows, m.hasDestroy,
         m.destroyThrows, some w.nextHandlerId⟩) := by
    have hb : loadExhibitBody env w exhibitId =
        loadWithConfig env w exhibitId config := by
      simp [loadExhibitBody, hc]
    unfold loadExhibit
    rw [hb]
    unfold loadWithConfig
    have hp : (if config.library = some "p5" then env.p5Load else .settled) =
        .settled := by
      by_cases hl : config.library = some "p5" <;> simp [hl, hp5]
    have hd : (if config.controls = some "dat.gui" then env.datLoad else .settled) =
        .settled := by
      by_cases hl : config.controls = some "dat.gui" <;> simp [hl, hdat]
    rw [hp, hd, himp]
    unfold instantiateModule
    simp [hclass, hctor, hinit]
  refine ⟨⟨exhibitId, m.hasStop, m.stopThrows, m.hasDestroy,
    m.destroyThrows, some w.nextHandlerId⟩, ?_, rfl, ?_, ?_, ?_⟩
  · rw [hload]
  · rw [hload]
  · rw [hload]
    simp [unloadExhibit, hstop, hdestroy]
  · rw [hload]
    simp only [unloadExhibit, hstop, hdestroy, Bool.and_false,
      Bool.false_eq_true, if_false]
    exact erase_appended_handler w.windowListeners w.nextHandlerId hfresh

/-- A well-behaved module for the C3 witness. -/
def tameModule : ModuleBehavior :=
  ⟨true, false, 1, true, false, true, false, true, false⟩

/-- Environment for the C3 witness: one enabled registry entry whose
config fetch and module import succeed. -/
def happyEnv : LoadEnv :=
  ⟨⟨[⟨"mandelbrot", true⟩]⟩,
   fun i => if i = "mandelbrot" then .ok ⟨"Mandelbrot", none, none⟩ else .error (),
   .settled, .settled,
   fun i => if i = "mandelbrot" then .ok tameModule else .error ()⟩

/-- Closed witness for C3 at a concrete environment and world. -/
theorem load_unload_clean_witness :
    ∃ inst, (loadExhibit happyEnv ⟨0, [], 0⟩ "mandelbrot").2 = some inst ∧
      inst.resizeHandler = some 0 ∧
      (loadExhibit happyEnv ⟨0, [], 0⟩ "mandelbrot").1.windowListeners =
        [] ++ [0] ∧
      (unloadExhibit (loadExhibit happyEnv ⟨0, [], 0⟩ "mandelbrot").1
        (loadExhibit happyEnv ⟨0, [], 0⟩ "mandelbrot").2).1.containerChildren = 0 ∧
      (unloadExhibit (loadExhibit happyEnv ⟨0, [], 0⟩ "mandelbrot").1
        (loadExhibit happyEnv ⟨0, [], 0⟩ "mandelbrot").2).1.windowListeners = [] :=
  load_unload_clean happyEnv ⟨0, [], 0⟩ "mandelbrot" ⟨"mandelbrot", true⟩
    ⟨"Mandelbrot", none, none⟩ tameModule (by decide) rfl rfl
    rfl rfl rfl rfl rfl rfl rfl rfl (by simp)

/-! ### The registry load: `loadRegistry` / `getExhibitConfig` over time

`loadRegistry` is an async method: its fetch is a suspension point, so
the assignment of `this.registry` happens at a later event-loop step.  The
state below records `this.registry` plus how many registry fetches were
ever started; `startRegistryFetch` is the synchronous prefix of
`loadRegistry` (issuing the fetch), `resolveRegistryFetch` is its
continuation (the `await` returning, or the `catch` on a failed fetch). -/

/-- Loader state relevant to registry loading. -/
structure RegLoaderState where
  registry : Option Registry
  fetchesStarted : Nat
deriving DecidableEq, Repr

/-- The synchronous prefix of `loadRegistry()`: issue the fetch of
`/js/exhibits/registry.json`. -/
def startRegistryFetch (st : RegLoaderState) : RegLoaderState :=
  { st with fetchesStarted := st.fetchesStarted + 1 }

/-- The continuation of `loadRegistry()` when its fetch settles: on
success assign the parsed document to `this.registry`; on failure the
`catch` logs and assigns the empty registry `{ exhibits: [] }`. -/
def resolveRegistryFetch (st : RegLoaderState)
    (result : Except Unit Registry) : RegLoaderState :=
  match result with
  | .ok reg => { st with registry := some reg }
  | .error _ => { st with registry := some ⟨[]⟩ }

/-- The synchronous prefix of `getExhibitConfig`: when `this.registry` is
still null, call `loadRegistry()` (starting a fresh fetch) and suspend on
it; otherwise continue synchronously.  Returns the new state and whether
the call suspended on a new registry fetch. -/
def getConfigStart (st : RegLoaderState) : RegLoaderState × Bool :=
  if st.registry = none then (startRegistryFetch st, true) else (st, false)

/-- The `ExhibitLoader` constructor: fields initialized with
`this.registry = null`, then `this.loadRegistry()` is called (and not
awaited), so one fetch is already in flight when the constructor
returns. -/
def newExhibitLoader : RegLoaderState := startRegistryFetch ⟨none, 0⟩

/-- Method `getExhibits()`: `this.registry ? this.registry.exhibits : []`. -/
def getExhibits (st : RegLoaderState) : List RegistryEntry :=
  match st.registry with
  | some reg => reg.exhibits
  | none => []

/-- Two `getExhibitConfig` calls arriving while the constructor's
registry fetch is still in flight: each sees `this.registry` null and
starts its own fetch. -/
def concurrentConfigCalls : RegLoaderState :=
  (getConfigStart (getConfigStart newExhibitLoader).1).1

/-- C5 counterexample: the in-flight registry load is not memoized — with
the constructor's eager fetch still pending, two concurrent
`getExhibitConfig` calls each start another fetch, for three registry
fetches in total, refuting "at most one registry fetch is performed in
total" (and the constructor's eager fetch also refutes "fetched lazily on
first use"). -/
theorem registry_fetch_not_memoized :
    concurrentConfigCalls.fetchesStarted = 3 ∧
    newExhibitLoader.fetchesStarted = 1 := by
  decide

/-- C5 (amended): the registry is fetched eagerly by the constructor, and
re-fetched by any `getExhibitConfig` call that still sees `this.registry`
null — the in-flight promise is not memoized, so each concurrent caller
before the first completion starts its own fetch ( `concurrentConfigCalls`
starts three).  Once any fetch settles, `this.registry` is non-null and
every later `getExhibitConfig` proceeds without starting a fetch. -/
theorem registry_fetch_once_settled (st : RegLoaderState) (reg : Registry)
    (h : st.registry = some reg) :
    (getConfigStart st).1 = st ∧ (getConfigStart st).2 = false ∧
    concurrentConfigCalls.fetchesStarted = 3 := by
  refine ⟨?_, ?_, by decide⟩ <;> simp [getConfigStart, h]

/-- Closed witness for C5 (amended): after a settled fetch the loader
never re-fetches. -/
theorem registry_fetch_once_settled_witness :
    (getConfigStart ⟨some ⟨[]⟩, 1⟩).1 = ⟨some ⟨[]⟩, 1⟩ ∧
    (getConfigStart ⟨some ⟨[]⟩, 1⟩).2 = false ∧
    concurrentConfigCalls.fetchesStarted = 3 :=
  registry_fetch_once_settled ⟨some ⟨[]⟩, 1⟩ ⟨[]⟩ rfl

/-- C10: when the registry fetch fails, the `catch` permanently caches the
empty registry: `this.registry` becomes `{ exhibits: [] }`, after which
`getExhibitConfig` never starts another fetch and resolves to null for
every id, and `getExhibits()` returns the empty list. -/
theorem registry_failure_cached (st : RegLoaderState)
    (fetch : String → Except Unit Config) :
    (resolveRegistryFetch st (.error ())).registry = some ⟨[]⟩ ∧
    (getConfigStart (resolveRegistryFetch st (.error ()))).1 =
      resolveRegistryFetch st (.error ()) ∧
    (getConfigStart (resolveRegistryFetch st (.error ()))).2 = false ∧
    (∀ exhibitId, lookupConfig ⟨[]⟩ fetch exhibitId = none) ∧
    getExhibits (resolveRegistryFetch st (.error ())) = [] := by
  refine ⟨rfl, ?_, ?_, ?_, rfl⟩
  · simp [getConfigStart, resolveRegistryFetch]
  · simp [getConfigStart, resolveRegistryFetch]
  · intro exhibitId
    rfl

/-! ### The SPA Router

The Router's visible state: the current (normalized) route, the active
exhibit instance, which of the two views is displayed, the loading
indicator, the history entries pushed, and the ids of in-flight
`loadExhibit` calls (the suspended remainders of `showExhibit`).  A
`showExhibit` call runs synchronously up to `await loadExhibit(id)`; the
suspended continuation is executed by `resolveLoad` when that load
settles. -/

/-- Which of the two views is displayed (`gallery-view` / `exhibit-view`
display styles). -/
inductive View where
  | gallery
  | exhibit
deriving DecidableEq, Repr

/-- Router state. -/
structure RouterState where
  currentRoute : Option String
  currentExhibit : Option ExhibitInstance
  view : View
  loadingVisible : Bool
  historyPushes : List String
  pendingLoads : List String
deriving DecidableEq, Repr

/-- Router state plus the browser world the loader mutates. -/
structure Sys where
  router : RouterState
  world : World
deriving DecidableEq, Repr

/-- Test `path.endsWith('/')`. -/
def endsWithSlash (path : String) : Bool :=
  match path.data.getLast? with
  | some c => c = '/'
  | none => false

/-- Slice `path.slice(0, -1)`: the path without its last character. -/
def dropLastChar (path : String) : String :=
  String.mk path.data.dropLast

/-- Slice `path.substring(1)`: the path without its first character. -/
def dropFirstChar (path : String) : String :=
  String.mk (path.data.drop 1)

/-- The trailing-slash normalization at the top of `handleRoute`:
`if (path !== '/' && path.endsWith('/')) path = path.slice(0, -1)`. -/
def normalizePath (path : String) : String :=
  if path = "/" then path
  else if endsWithSlash path then dropLastChar path
  else path

/-- Method `showGallery()`: unload the current exhibit if any (fire-and-forget;
its body is synchronous), switch the views, hide the loading indicator. -/
def showGallery (s : Sys) : Sys :=
  { router := { s.router with
      currentExhibit := none,
      view := .gallery,
      loadingVisible := false },
    world := (unloadExhibit s.world s.router.currentExhibit).1 }

/-- The synchronous prefix of `showExhibit(exhibitId)`: show the loading
indicator, await the unload of the previous exhibit (its body is
synchronous, so it completes before the load starts), null out
`currentExhibit`, and start `loadExhibit(exhibitId)`, suspending on it. -/
def showExhibitStart (s : Sys) (exhibitId : String) : Sys :=
  { router := { s.router with
      currentExhibit := none,
      loadingVisible := true,
      pendingLoads := s.router.pendingLoads ++ [exhibitId] },
    world := (unloadExhibit s.world s.router.currentExhibit).1 }

/-- Method `handleRoute(path)`: normalize the trailing slash; return if already
on this route; record the new route; show the gallery for the root or
empty path, else start showing the exhibit named by the path without its
leading slash. -/
def handleRoute (s : Sys) (path : String) : Sys :=
  let p := normalizePath path
  if s.router.currentRoute = some p then s
  else
    let s1 : Sys := { s with router := { s.router with currentRoute := some p } }
    if p = "/" ∨ p = "" then showGallery s1
    else if dropFirstChar p = "" then showGallery s1
    else showExhibitStart s1 (dropFirstChar p)

/-- Method `navigateTo(path)`: `if (path !== this.currentRoute)` — note the raw
path is compared, before any normalization — push a history entry and
run `handleRoute(path)`. -/
def navigateTo (s : Sys) (path : String) : Sys :=
  if s.router.currentRoute = some path then s
  else
    let s1 : Sys := { s with router := { s.router with
      historyPushes := s.router.historyPushes ++ [path] } }
    handleRoute s1 path

/-- The continuation of `showExhibit(exhibitId)` when its
`loadExhibit(exhibitId)` settles: the loader's effects happen now (its
awaits resolve in this event-loop turn), the result is assigned to
`this.currentExhibit` unconditionally — there is no check that
`exhibitId` still matches the current route — and on null the router
navigates home, while on success the exhibit view is shown and (after the
animation frame and timer) the loading indicator hidden. -/
def resolveLoad (env : LoadEnv) (s : Sys) (exhibitId : String) : Sys :=
  let r := loadExhibit env s.world exhibitId
  let s1 : Sys :=
    { router := { s.router with
        pendingLoads := s.router.pendingLoads.erase exhibitId },
      world := r.1 }
  match r.2 with
  | none =>
      navigateTo
        { s1 with router := { s1.router with currentExhibit := none } } "/"
  | some inst =>
      { s1 with router := { s1.router with
          currentExhibit := some inst,
          view := .exhibit,
          loadingVisible := false } }

/-- A fresh Router as built by the constructor (all state empty) after its
initial `handleRoute(window.location.pathname)` on the root path. -/
def initRouterSys : Sys :=
  handleRoute ⟨⟨none, none, .gallery, false, [], []⟩, ⟨0, [], 0⟩⟩ "/"

/-- Environment with two enabled exhibits `a` and `b` whose loads both
succeed. -/
def twoExhibitEnv : LoadEnv :=
  ⟨⟨[⟨"a", true⟩, ⟨"b", true⟩]⟩,
   fun i => if i = "a" ∨ i = "b" then .ok ⟨"T", none, none⟩ else .error (),
   .settled, .settled,
   fun i => if i = "a" ∨ i = "b" then .ok tameModule else .error ()⟩

/-- Rapid navigation `/a` then `/b` before either load settles, with
`b`'s load settling first and `a`'s (slow) load settling last. -/
def staleNavSys : Sys :=
  resolveLoad twoExhibitEnv
    (resolveLoad twoExhibitEnv
      (navigateTo (navigateTo initRouterSys "/a") "/b") "b") "a"

/-- C1: the Router has no stale-response guard.  In the rapid-navigation
trace `/a` then `/b` where `/a`'s load settles after `/b`'s, the instance
produced by `a`'s load IS mounted — it ends up as the current exhibit and
its DOM sits in the shared container — while the current route is still
`/b`, and `b`'s instance is clobbered without being unloaded (its resize
listener, handler 0, is leaked next to `a`'s handler 1).  This exhibits
the defect: the spec requires the stale load to be discarded and the
final visible state to correspond to `/b`. -/
theorem stale_load_mounts_stale_exhibit :
    staleNavSys.router.currentRoute = some "/b" ∧
    staleNavSys.router.currentExhibit.map ExhibitInstance.id = some "a" ∧
    (staleNavSys.router.currentExhibit.map ExhibitInstance.resizeHandler) =
      some (some 1) ∧
    staleNavSys.world.windowListeners = [0, 1] ∧
    staleNavSys.router.view = .exhibit := by
  decide

/-- A Router sitting on route `/a` with exhibit `a` active. -/
def exhibitASys : Sys :=
  resolveLoad twoExhibitEnv (navigateTo initRouterSys "/a") "a"

/-- C9 counterexample: with the current route `/a`, navigating to `/a/` —
the same path after trailing-slash normalization — is not a no-op:
`navigateTo` compares the raw path against the current route, so it
pushes a history entry for `/a/` (the inner `handleRoute` then returns
early, leaving everything else unchanged).  This refutes "no history
entry is pushed" for paths equal to the current route only after
normalization. -/
theorem navigateTo_trailing_slash_pushes :
    normalizePath "/a/" = "/a" ∧
    exhibitASys.router.currentRoute = some (normalizePath "/a/") ∧
    (navigateTo exhibitASys "/a/").router.historyPushes =
      exhibitASys.router.historyPushes ++ ["/a/"] := by
  decide

/-- C9 (amended): if the Router's current route is already `p` after
trailing-slash normalization, then `handleRoute(p)` changes nothing at
all, and `navigateTo(p)` changes nothing when `p` equals the current
route exactly; but when `p` differs from the current route by a trailing
slash, `navigateTo(p)` pushes one history entry for the raw `p` while
changing nothing else — no unload or load is invoked and the mounted view
and active instance are unchanged. -/
theorem navigation_idempotent (s : Sys) (p : String)
    (h : s.router.currentRoute = some (normalizePath p)) :
    handleRoute s p = s ∧
    (p = normalizePath p → navigateTo s p = s) ∧
    (p ≠ normalizePath p → navigateTo s p =
      { s with router := { s.router with
          historyPushes := s.router.historyPushes ++ [p] } }) := by
  refine ⟨?_, ?_, ?_⟩
  · simp [handleRoute, h]
  · intro he
    rw [navigateTo, if_pos (by rw [h, ← he])]
  · intro hne
    have hcond : ¬ s.router.currentRoute = some p := by
      rw [h]
      intro hc
      exact hne (by injection hc with h1; exact h1.symm)
    rw [navigateTo, if_neg hcond]
    simp only [handleRoute, h]
    simp

/-- Closed witness for C9 (amended): on route `/a`, both `handleRoute`
and `navigateTo` with the exact path `/a` are no-ops. -/
theorem navigation_idempotent_witness :
    handleRoute exhibitASys "/a" = exhibitASys ∧
    ("/a" = normalizePath "/a" → navigateTo exhibitASys "/a" = exhibitASys) ∧
    ("/a" ≠ normalizePath "/a" → navigateTo exhibitASys "/a" =
      { exhibitASys with router := { exhibitASys.router with
          historyPushes := exhibitASys.router.historyPushes ++ ["/a"] } }) :=
  navigation_idempotent exhibitASys "/a" (by decide)
